import Mathlib

/-!
Shallow embedding of the GitAlong matching engine (src/backend/main.py).

The engine scores every candidate profile against a requesting user with four
signals (tech-stack overlap, bio similarity, GitHub activity, collaborative
filtering over swipe history), combines them into a weighted overall score,
sorts descending and truncates to the requested count.

Modelling conventions:
- Python floats are modelled exactly as rationals; the scoring pipeline only
  adds, multiplies, divides and compares, so the rational semantics agrees
  with the intended real-number semantics of the source.
- The sentence-transformer encoder plus sklearn cosine similarity that feed
  the bio signal are external collaborators; inside the ranking pipeline they
  appear as an abstract kernel `sim : String → String → ℚ` applied exactly
  where lines 386-391 of main.py apply them.  The cosine computation itself
  is modelled separately over real vectors for the claims about it.
- Database rows are lists: `db : List Profile` stands for the user_profiles
  table (SELECT order = list order), `history : List SwipeRecord` for the
  swipe_history table.
- Python truthiness of `profile.bio` is `bio ≠ ""`; truthiness of the
  `github_stats` JSON dict is `Option.isSome` (a missing or empty dict is
  `none`).
- `list[:n]` is `pySliceTo`, including negative-index semantics.
-/

namespace GitAlong

/-- The two fields of the github_stats JSON blob that the scorer reads
(main.py lines 396-397); `.get` defaults of 0 are normalized here. -/
structure GithubStats where
  followers : Nat
  public_repos : Nat
deriving DecidableEq

/-- A row of the user_profiles table, restricted to the columns the
recommendation pipeline reads (main.py lines 101-114). `bio = ""` stands for
an absent bio (NULL and empty string are both falsy at line 387). -/
structure Profile where
  id : String
  bio : String
  tech_stack : List String
  github_stats : Option GithubStats
deriving DecidableEq

/-- A row of the swipe_history table (main.py lines 116-124), restricted to
the columns `_calculate_collaborative_score` reads. -/
structure SwipeRecord where
  swiper_id : String
  target_id : String
  direction : String
deriving DecidableEq

/-- RecommendationRequest (main.py lines 176-180).  No validation constraint
is attached to any field in the source. -/
structure RecommendationRequest where
  user_id : String
  exclude_user_ids : List String
  max_recommendations : Int
  include_analytics : Bool
deriving DecidableEq

/-- MatchScore (main.py lines 195-203). -/
structure MatchScore where
  target_user_id : String
  similarity_score : ℚ
  tech_overlap_score : ℚ
  bio_similarity_score : ℚ
  github_activity_score : ℚ
  collaborative_score : ℚ
  overall_score : ℚ
  match_reasons : List String
deriving DecidableEq

/-- MatchResponse (main.py lines 205-210) together with the analytics dict
built at lines 443-447, flattened into named fields. -/
structure MatchResponse where
  user_id : String
  recommendations : List MatchScore
  total_profiles_analyzed : Nat
  recommendations_generated : Nat
  average_score : ℚ
deriving DecidableEq

/-- The one failure the endpoint distinguishes before scoring: the requester
profile is missing (main.py lines 369-370). -/
inductive RecommendationError where
  | userProfileNotFound
deriving DecidableEq

/-- Tech overlap signal (main.py lines 383-384):
`len(set(user) & set(cand)) / max(len(user.tech_stack), 1)`.
The intersection deduplicates; the denominator is the raw list length of the
REQUESTER stack only. -/
def tech_overlap_score (userStack candStack : List String) : ℚ :=
  ((userStack.toFinset ∩ candStack.toFinset).card : ℚ) /
    ((max userStack.length 1 : Nat) : ℚ)

/-- GitHub activity signal (main.py lines 393-398): 0.0 when the stats dict
is absent or empty, otherwise `min((followers + repos * 10) / 1000, 1.0)`. -/
def github_score (github_stats : Option GithubStats) : ℚ :=
  match github_stats with
  | none => 0
  | some stats =>
      min (((stats.followers : ℚ) + (stats.public_repos : ℚ) * 10) / 1000) 1

/-- Swipers who right-swiped the target (main.py lines 552-556). -/
def users_who_liked (target_id : String) (history : List SwipeRecord) :
    List String :=
  (history.filter fun r =>
    decide (r.target_id = target_id ∧ r.direction = "right")).map
    (fun r => r.swiper_id)

/-- Targets the user right-swiped (main.py lines 562-566). -/
def user_likes (user_id : String) (history : List SwipeRecord) :
    List String :=
  (history.filter fun r =>
    decide (r.swiper_id = user_id ∧ r.direction = "right")).map
    (fun r => r.target_id)

/-- The overlap count of main.py lines 572-578: for each user who liked the
target (with multiplicity), count their right-swipes onto the requester
likes. -/
def swipe_overlap (likers likes : List String)
    (history : List SwipeRecord) : Nat :=
  (likers.map fun liked_user =>
    (history.filter fun r =>
      decide (r.swiper_id = liked_user ∧ r.target_id ∈ likes ∧
        r.direction = "right")).length).sum

/-- Collaborative filtering signal (main.py lines 548-584). Returns 0.0 when
nobody liked the target, 0.0 when the requester liked nobody, otherwise
`min(overlap / (len(likers) * len(likes)), 1.0)`. -/
def _calculate_collaborative_score (user_id target_id : String)
    (history : List SwipeRecord) : ℚ :=
  let likers := users_who_liked target_id history
  if likers = [] then 0
  else
    let likes := user_likes user_id history
    if likes = [] then 0
    else
      min ((swipe_overlap likers likes history : ℚ) /
        ((likers.length * likes.length : Nat) : ℚ)) 1

/-- Match reasons (main.py lines 413-422): one fixed string per signal
threshold that fires, in source order; nothing caps the list and nothing is
appended when no threshold fires. -/
def match_reasons (techScore bioScore ghScore collabScore : ℚ) :
    List String :=
  (if techScore > 0.5 then ["Strong tech stack overlap"] else []) ++
  (if bioScore > 0.7 then ["Similar interests and background"] else []) ++
  (if ghScore > 0.5 then ["Active GitHub contributor"] else []) ++
  (if collabScore > 0.6 then ["Similar to users you have liked"] else [])

/-- Scoring of one candidate (main.py lines 381-433): the four signals, the
weighted overall score of lines 406-411 (weights 0.3, 0.25, 0.2, 0.25) and
the assembled MatchScore record, whose similarity_score and overall_score
fields both receive the same overall value. `sim` is the external
encoder-plus-cosine collaborator applied at lines 387-391 when both bios are
truthy. -/
def scoreCandidate (sim : String → String → ℚ) (request_user_id : String)
    (user_profile profile : Profile) (history : List SwipeRecord) :
    MatchScore :=
  let techScore := tech_overlap_score user_profile.tech_stack profile.tech_stack
  let bioScore : ℚ :=
    if user_profile.bio ≠ "" ∧ profile.bio ≠ "" then
      sim user_profile.bio profile.bio
    else 0
  let ghScore := github_score profile.github_stats
  let collabScore :=
    _calculate_collaborative_score request_user_id profile.id history
  let overall : ℚ :=
    techScore * 0.3 + bioScore * 0.25 + ghScore * 0.2 + collabScore * 0.25
  { target_user_id := profile.id
    similarity_score := overall
    tech_overlap_score := techScore
    bio_similarity_score := bioScore
    github_activity_score := ghScore
    collaborative_score := collabScore
    overall_score := overall
    match_reasons := match_reasons techScore bioScore ghScore collabScore }

/-- Python `list[:n]` for an arbitrary integer `n`. -/
def pySliceTo (n : Int) (l : List α) : List α :=
  if 0 ≤ n then l.take n.toNat else l.take (l.length - (-n).toNat)

/-- The candidate pool query of main.py lines 373-377:
`id != :user_id AND id NOT IN :exclude_ids`, where an empty exclusion list is
replaced by the singleton tuple containing the empty string. -/
def candidate_pool (db : List Profile) (request : RecommendationRequest) :
    List Profile :=
  let exclude_ids :=
    if request.exclude_user_ids = [] then [""] else request.exclude_user_ids
  db.filter fun p =>
    decide (p.id ≠ request.user_id ∧ p.id ∉ exclude_ids)

/-- Descending comparison on overall score used by the sort at main.py line
436 (`sort(key=lambda x: x.overall_score, reverse=True)`). -/
def byOverallDesc (a b : MatchScore) : Prop :=
  b.overall_score ≤ a.overall_score

instance : DecidableRel byOverallDesc := fun a b =>
  inferInstanceAs (Decidable (b.overall_score ≤ a.overall_score))

instance : IsTotal MatchScore byOverallDesc :=
  ⟨fun a b => le_total b.overall_score a.overall_score⟩

instance : IsTrans MatchScore byOverallDesc :=
  ⟨fun _ _ _ hab hbc => le_trans hbc hab⟩

/-- The /recommendations endpoint core (main.py lines 355-448): look up the
requester (404 when absent), build the candidate pool, score every
candidate, sort stably by overall score descending (Python list.sort with
reverse=True is a stable descending sort, as is insertionSort with this
relation), truncate to max_recommendations, and assemble the response with
its analytics fields. -/
def get_recommendations (db : List Profile) (history : List SwipeRecord)
    (sim : String → String → ℚ) (request : RecommendationRequest) :
    Except RecommendationError MatchResponse :=
  match db.find? (fun p => p.id == request.user_id) with
  | none => Except.error RecommendationError.userProfileNotFound
  | some user_profile =>
    let other_profiles := candidate_pool db request
    let recommendations := other_profiles.map fun p =>
      scoreCandidate sim request.user_id user_profile p history
    let sorted := List.insertionSort byOverallDesc recommendations
    let page := pySliceTo request.max_recommendations sorted
    Except.ok
      { user_id := request.user_id
        recommendations := page
        total_profiles_analyzed := other_profiles.length
        recommendations_generated := page.length
        average_score :=
          if page = [] then 0
          else (page.map (fun r => r.overall_score)).sum / (page.length : ℚ) }

/-- Modelled from the spec: the overall-score formula the spec states in
section 4.6, `overall = 0.35*tech + 0.25*bio + 0.20*activity + 0.20*collab`,
kept separate from the source formula for comparison. -/
def overall_score_spec (tech bio activity collab : ℚ) : ℚ :=
  0.35 * tech + 0.25 * bio + 0.20 * activity + 0.20 * collab

/-! The cosine-similarity step itself (main.py lines 388-389), modelled over
real vectors of a fixed dimension, with the sentence-transformer encoder as
an abstract function into real vectors. -/

/-- Dot product of fixed-length real vectors. -/
def dotProduct {n : Nat} (u v : Fin n → ℝ) : ℝ := ∑ i, u i * v i

/-- sklearn cosine_similarity of two vectors (main.py line 389): the dot
product over the product of the Euclidean norms.  Lean division by zero
returns 0, matching the guarded behaviour of sklearn on zero vectors. -/
noncomputable def cosine_similarity {n : Nat} (u v : Fin n → ℝ) : ℝ :=
  dotProduct u v / (Real.sqrt (dotProduct u u) * Real.sqrt (dotProduct v v))

/-- Bio similarity (main.py lines 386-391) over an explicit encoder: the raw
cosine similarity of the two encoded bios when both bios are truthy, else
0.0.  The source applies no clamping, no placeholder text and no
minimum-length check. -/
noncomputable def bio_similarity {n : Nat} (enc : String → Fin n → ℝ)
    (bioA bioB : String) : ℝ :=
  if bioA ≠ "" ∧ bioB ≠ "" then cosine_similarity (enc bioA) (enc bioB) else 0

/-- A two-dimensional encoder sending the bio "a" and every other bio to
antipodal unit vectors; a legitimate instance of the abstract embedding
provider, used to exhibit a negative cosine similarity. -/
def encNeg : String → Fin 2 → ℝ := fun s => if s = "a" then ![1, 0] else ![-1, 0]

/-! Concrete demonstration data used by witnesses and counterexamples. -/

/-- A similarity kernel that returns 0 for every pair of bios. -/
def simZero : String → String → ℚ := fun _ _ => 0

/-- A similarity kernel that returns 1 for every pair of bios. -/
def simOne : String → String → ℚ := fun _ _ => 1

/-- Demo requester: one technology, no bio, no stats. -/
def demoUser : Profile :=
  { id := "u", bio := "", tech_stack := ["python"], github_stats := none }

/-- Demo candidate sharing the tech stack of the requester. -/
def demoCand : Profile :=
  { id := "c", bio := "", tech_stack := ["python"], github_stats := none }

/-- Demo request with a given max_recommendations. -/
def demoRequest (n : Int) : RecommendationRequest :=
  { user_id := "u", exclude_user_ids := [], max_recommendations := n,
    include_analytics := true }

/-- Demo database of two rows. -/
def demoDb : List Profile := [demoUser, demoCand]

/-- Fallback MatchScore for head extraction. -/
def fallbackScore : MatchScore :=
  { target_user_id := "", similarity_score := 0, tech_overlap_score := 0,
    bio_similarity_score := 0, github_activity_score := 0,
    collaborative_score := 0, overall_score := 0, match_reasons := [] }

/-- Fallback MatchResponse for Option extraction. -/
def emptyResponse : MatchResponse :=
  { user_id := "", recommendations := [], total_profiles_analyzed := 0,
    recommendations_generated := 0, average_score := 0 }

/-- The response of the demo database at the default limit 20. -/
def demoRes20 : MatchResponse :=
  (get_recommendations demoDb [] simZero (demoRequest 20)).toOption.getD
    emptyResponse

/-- The head recommendation of the demo response. -/
def demoRec : MatchScore := demoRes20.recommendations.headD fallbackScore

/-- The response of the demo database at limit 51, above the ceiling the
spec requires. -/
def demoRes51 : MatchResponse :=
  (get_recommendations demoDb [] simZero (demoRequest 51)).toOption.getD
    emptyResponse

/-- Requester for the all-thresholds demo. -/
def richUser : Profile :=
  { id := "u", bio := "backend engineer", tech_stack := ["python"],
    github_stats := none }

/-- Candidate firing all four match-reason thresholds: full tech overlap,
a bio, 1000 followers, and a fully overlapping swipe neighbourhood. -/
def richCand : Profile :=
  { id := "c", bio := "loves open source", tech_stack := ["python"],
    github_stats := some { followers := 1000, public_repos := 0 } }

/-- Database for the all-thresholds demo. -/
def richDb : List Profile := [richUser, richCand]

/-- Swipe history for the all-thresholds demo: the requester right-swiped
the candidate. -/
def richHistory : List SwipeRecord :=
  [{ swiper_id := "u", target_id := "c", direction := "right" }]

/-- The response of the all-thresholds demo. -/
def richRes : MatchResponse :=
  (get_recommendations richDb richHistory simOne (demoRequest 20)).toOption.getD
    emptyResponse

/-- The head recommendation of the all-thresholds demo. -/
def richRec : MatchScore := richRes.recommendations.headD fallbackScore

/-- Requester for the tie-break demo: everything empty, so every candidate
scores 0 on every signal. -/
def tieUser : Profile :=
  { id := "u", bio := "", tech_stack := [], github_stats := none }

/-- Tie candidate with identity "b", listed before "a" in the database. -/
def tieB : Profile :=
  { id := "b", bio := "", tech_stack := [], github_stats := none }

/-- Tie candidate with identity "a", listed after "b" in the database. -/
def tieA : Profile :=
  { id := "a", bio := "", tech_stack := [], github_stats := none }

/-- Database for the tie-break demo, with "b" before "a". -/
def tieDb : List Profile := [tieUser, tieB, tieA]

/-- The response of the tie-break demo. -/
def tieRes : MatchResponse :=
  (get_recommendations tieDb [] simZero (demoRequest 20)).toOption.getD
    emptyResponse

/-- A single swipe record in which a third user "x" right-swiped the
candidate "c". -/
def xLike : SwipeRecord :=
  { swiper_id := "x", target_id := "c", direction := "right" }

end GitAlong

namespace GitAlong

/-! Helper lemmas shared by several claim theorems. -/

theorem mem_pySliceTo {n : Int} {l : List α} {a : α} (h : a ∈ pySliceTo n l) :
    a ∈ l := by
  unfold pySliceTo at h
  split at h <;> exact List.mem_of_mem_take h

theorem pySliceTo_sublist (n : Int) (l : List α) :
    List.Sublist (pySliceTo n l) l := by
  unfold pySliceTo
  split <;> exact List.take_sublist _ _

/-- Every entry of a successful response is the score of some candidate-pool
member, computed against the requester profile found in the database. -/
theorem rec_mem_scored {db : List Profile} {history : List SwipeRecord}
    {sim : String → String → ℚ} {request : RecommendationRequest}
    {res : MatchResponse}
    (h : get_recommendations db history sim request = Except.ok res) :
    ∀ r ∈ res.recommendations, ∃ user_profile p,
      db.find? (fun q => q.id == request.user_id) = some user_profile ∧
      p ∈ candidate_pool db request ∧
      r = scoreCandidate sim request.user_id user_profile p history := by
  intro r hr
  unfold get_recommendations at h
  cases hfind : db.find? (fun q => q.id == request.user_id) with
  | none => rw [hfind] at h; exact absurd h (by simp)
  | some user_profile =>
    rw [hfind] at h
    simp only [Except.ok.injEq] at h
    subst h
    have h2 := mem_pySliceTo hr
    rw [List.mem_insertionSort] at h2
    obtain ⟨p, hp, rfl⟩ := List.mem_map.mp h2
    exact ⟨user_profile, p, rfl, hp, rfl⟩

/-- The reasons list never exceeds four entries: one possible string per
threshold. -/
theorem match_reasons_length_le (t b g c : ℚ) :
    (match_reasons t b g c).length ≤ 4 := by
  unfold match_reasons
  split <;> split <;> split <;> split <;> simp

theorem dotProduct_self_eq {n : Nat} (u : Fin n → ℝ) :
    dotProduct u u = ∑ i, u i ^ 2 := by
  simp [dotProduct, sq]

/-- Cauchy-Schwarz, packaged for `cosine_similarity`. -/
theorem abs_dotProduct_le {n : Nat} (u v : Fin n → ℝ) :
    |dotProduct u v| ≤
      Real.sqrt (dotProduct u u) * Real.sqrt (dotProduct v v) := by
  rw [dotProduct_self_eq u, dotProduct_self_eq v]
  rw [abs_le]
  constructor
  · have h := Real.sum_mul_le_sqrt_mul_sqrt Finset.univ u (fun i => -v i)
    simp only [mul_neg, Finset.sum_neg_distrib, neg_sq] at h
    have h2 : -dotProduct u v ≤
        Real.sqrt (∑ i, u i ^ 2) * Real.sqrt (∑ i, v i ^ 2) := by
      simpa [dotProduct] using h
    linarith
  · have h := Real.sum_mul_le_sqrt_mul_sqrt Finset.univ u v
    simpa [dotProduct] using h

/-- Cosine similarity of arbitrary real vectors lies in [-1, 1]. -/
theorem cosine_similarity_bounds {n : Nat} (u v : Fin n → ℝ) :
    -1 ≤ cosine_similarity u v ∧ cosine_similarity u v ≤ 1 := by
  have hD : 0 ≤ Real.sqrt (dotProduct u u) * Real.sqrt (dotProduct v v) :=
    mul_nonneg (Real.sqrt_nonneg _) (Real.sqrt_nonneg _)
  have habs : |cosine_similarity u v| ≤ 1 := by
    rw [cosine_similarity, abs_div, abs_of_nonneg hD]
    exact div_le_one_of_le₀ (abs_dotProduct_le u v) hD
  exact abs_le.mp habs

end GitAlong

namespace GitAlong

section
attribute [local semireducible] Rat.add Rat.mul Rat.inv Rat.sub Rat.ofScientific

/-- C1 (amended): in every successful response, each recommendation carries
an overall score equal to the weighted sum of its four recorded signal
scores with the source weights 0.30 tech, 0.25 bio, 0.20 activity, 0.25
collaborative. -/
theorem C1_overall_weights {db : List Profile} {history : List SwipeRecord}
    {sim : String → String → ℚ} {request : RecommendationRequest}
    {res : MatchResponse}
    (h : get_recommendations db history sim request = Except.ok res) :
    ∀ r ∈ res.recommendations,
      r.overall_score = 0.3 * r.tech_overlap_score +
        0.25 * r.bio_similarity_score + 0.2 * r.github_activity_score +
        0.25 * r.collaborative_score := by
  intro r hr
  obtain ⟨u, p, _, _, rfl⟩ := rec_mem_scored h r hr
  simp only [scoreCandidate]
  ring

/-- C1 witness: the weight identity holds of the head recommendation of the
demo run. -/
theorem C1_overall_weights_witness :
    get_recommendations demoDb [] simZero (demoRequest 20) =
        Except.ok demoRes20 ∧
      demoRec ∈ demoRes20.recommendations ∧
      demoRec.overall_score = 0.3 * demoRec.tech_overlap_score +
        0.25 * demoRec.bio_similarity_score +
        0.2 * demoRec.github_activity_score +
        0.25 * demoRec.collaborative_score :=
  ⟨by rfl, by decide, @C1_overall_weights demoDb [] simZero (demoRequest 20)
    demoRes20 (by rfl) demoRec (by decide)⟩

/-- C1 counterexample: on a candidate with full tech overlap and all other
signals 0, the source computes overall 0.3 while the spec formula
0.35 tech + 0.25 bio + 0.20 activity + 0.20 collab gives 0.35. -/
theorem C1_spec_weights_counterexample :
    (scoreCandidate simZero "u" demoUser demoCand []).overall_score ≠
      overall_score_spec
        (scoreCandidate simZero "u" demoUser demoCand []).tech_overlap_score
        (scoreCandidate simZero "u" demoUser demoCand []).bio_similarity_score
        (scoreCandidate simZero "u" demoUser demoCand []).github_activity_score
        (scoreCandidate simZero "u" demoUser demoCand []).collaborative_score := by
  decide

/-- C2 (amended): the tech-overlap signal normalizes only by the requester
stack length, so the general symmetry claimed by the spec fails (see the
counterexample); symmetry does hold whenever the two stacks have equal list
length. -/
theorem C2_tech_overlap_symm_of_length_eq (a b : List String)
    (h : a.length = b.length) :
    tech_overlap_score a b = tech_overlap_score b a := by
  unfold tech_overlap_score
  rw [Finset.inter_comm, h]

/-- C2 witness: symmetry holds on two concrete stacks of length 2. -/
theorem C2_tech_overlap_symm_witness :
    (["python", "js"] : List String).length =
        (["rust", "python"] : List String).length ∧
      tech_overlap_score ["python", "js"] ["rust", "python"] =
        tech_overlap_score ["rust", "python"] ["python", "js"] :=
  ⟨by decide, C2_tech_overlap_symm_of_length_eq ["python", "js"]
    ["rust", "python"] (by decide)⟩

/-- C2 counterexample: techOverlap is not symmetric: a one-element stack
against a two-element stack scores 1, the reverse direction scores 1/2. -/
theorem C2_tech_overlap_asymmetric :
    tech_overlap_score ["python"] ["python", "flutter"] ≠
      tech_overlap_score ["python", "flutter"] ["python"] := by
  decide

/-- C3 (amended): the bio-similarity signal lies in [-1, 1], not [0, 1]:
the source returns the raw cosine similarity without clamping negative
values (see the counterexample), and returns 0 when either bio is empty. -/
theorem C3_bio_similarity_bounds {n : Nat} (enc : String → Fin n → ℝ)
    (bioA bioB : String) :
    -1 ≤ bio_similarity enc bioA bioB ∧ bio_similarity enc bioA bioB ≤ 1 := by
  unfold bio_similarity
  split
  · exact cosine_similarity_bounds _ _
  · norm_num

/-- C3 counterexample: with an encoder mapping the two bios to antipodal
vectors, the signal is negative (here exactly -1), so it is not clamped to
[0, 1]. -/
theorem C3_bio_similarity_negative : bio_similarity encNeg "a" "b" < 0 := by
  have ha : encNeg "a" = ![1, 0] := if_pos rfl
  have hb : encNeg "b" = ![-1, 0] := if_neg (by decide)
  rw [bio_similarity, if_pos (by simp), ha, hb]
  rw [cosine_similarity]
  have h1 : dotProduct ![(1 : ℝ), 0] ![-1, 0] = -1 := by
    simp [dotProduct, Fin.sum_univ_two]
  have h2 : dotProduct ![(1 : ℝ), 0] ![1, 0] = 1 := by
    simp [dotProduct, Fin.sum_univ_two]
  have h3 : dotProduct ![(-1 : ℝ), 0] ![-1, 0] = 1 := by
    simp [dotProduct, Fin.sum_univ_two]
  rw [h1, h2, h3, Real.sqrt_one]
  norm_num

/-- C4 (amended): when either bio is empty the signal short-circuits to 0.0;
no placeholder sentence is substituted and no minimum-length check exists. -/
theorem C4_empty_bio_zero {n : Nat} (enc : String → Fin n → ℝ)
    (bioA bioB : String) (h : bioA = "" ∨ bioB = "") :
    bio_similarity enc bioA bioB = 0 := by
  rcases h with h | h <;> simp [bio_similarity, h]

/-- C4 witness: an empty first bio forces the signal to 0. -/
theorem C4_empty_bio_zero_witness :
    (("" : String) = "" ∨ ("a bio" : String) = "") ∧
      bio_similarity encNeg "" "a bio" = 0 :=
  ⟨Or.inl rfl, C4_empty_bio_zero encNeg "" "a bio" (Or.inl rfl)⟩

/-- C4 counterexample: with both bios empty the signal is exactly 0, not the
high placeholder-derived value the spec describes. -/
theorem C4_both_empty_bios_zero :
    bio_similarity encNeg "" "" = 0 ∧
      ¬ ((1 / 2 : ℝ) ≤ bio_similarity encNeg "" "") := by
  constructor
  · simp [bio_similarity]
  · norm_num [bio_similarity]

/-- C5 (amended): when the candidate activity-statistics record is absent
the activity signal is exactly 0.0, not 0.5; the requester statistics are
never read (the signal depends only on the candidate field). -/
theorem C5_absent_stats_zero (sim : String → String → ℚ)
    (request_user_id : String) (user_profile profile : Profile)
    (history : List SwipeRecord) (h : profile.github_stats = none) :
    (scoreCandidate sim request_user_id user_profile profile
      history).github_activity_score = 0 := by
  simp [scoreCandidate, github_score, h]

/-- C5 witness: the stat-less demo candidate receives activity score 0. -/
theorem C5_absent_stats_zero_witness :
    demoCand.github_stats = none ∧
      (scoreCandidate simZero "u" demoUser demoCand
        []).github_activity_score = 0 :=
  ⟨rfl, C5_absent_stats_zero simZero "u" demoUser demoCand [] rfl⟩

/-- C5 counterexample: with both statistics records absent the signal is 0,
not the neutral 0.5 the spec claims. -/
theorem C5_activity_none_not_half :
    github_score none = 0 ∧ github_score none ≠ 0.5 := by
  decide

/-- C6 (amended): when the requester has no right-swipes the collaborative
signal returns exactly 0.0, not 0.5 (and also 0.0 when nobody right-swiped
the candidate). -/
theorem C6_no_likes_zero (user_id target_id : String)
    (history : List SwipeRecord) (h : user_likes user_id history = []) :
    _calculate_collaborative_score user_id target_id history = 0 := by
  rw [_calculate_collaborative_score, h]
  simp

/-- C6 witness: a history in which only a third user right-swiped the
candidate gives collaborative score 0 for the requester. -/
theorem C6_no_likes_zero_witness :
    user_likes "u" [xLike] = [] ∧
      _calculate_collaborative_score "u" "c" [xLike] = 0 :=
  ⟨by decide, C6_no_likes_zero "u" "c" [xLike] (by decide)⟩

/-- C6 counterexample: with an empty requester-accept set the collaborative
signal is 0, not the 0.5 the spec claims. -/
theorem C6_empty_accept_not_half :
    _calculate_collaborative_score "u" "c" [xLike] = 0 ∧
      _calculate_collaborative_score "u" "c" [xLike] ≠ 0.5 := by
  decide

/-- C7 (amended): no limit ceiling exists: any request with a nonnegative
max_recommendations (including values above 50) is accepted and the page is
merely truncated to at most that many entries. -/
theorem C7_limit_truncates_only {db : List Profile}
    {history : List SwipeRecord} {sim : String → String → ℚ}
    {request : RecommendationRequest} {res : MatchResponse}
    (hn : 0 ≤ request.max_recommendations)
    (h : get_recommendations db history sim request = Except.ok res) :
    res.recommendations.length ≤ request.max_recommendations.toNat := by
  unfold get_recommendations at h
  cases hfind : db.find? (fun q => q.id == request.user_id) with
  | none => rw [hfind] at h; exact absurd h (by simp)
  | some user_profile =>
    rw [hfind] at h
    simp only [Except.ok.injEq] at h
    subst h
    simp only [pySliceTo, if_pos hn]
    exact List.length_take_le _ _

/-- C7 witness: the demo request at limit 51 succeeds and its page length is
bounded by 51. -/
theorem C7_limit_truncates_only_witness :
    (0 : Int) ≤ 51 ∧
      get_recommendations demoDb [] simZero (demoRequest 51) =
        Except.ok demoRes51 ∧
      demoRes51.recommendations.length ≤ (51 : Int).toNat :=
  ⟨by decide, by rfl, @C7_limit_truncates_only demoDb [] simZero
    (demoRequest 51) demoRes51 (by decide) (by rfl)⟩

/-- C7 counterexample: a request with limit 51 (above the claimed hard
ceiling of 50) is not rejected: the call succeeds and returns the single
candidate. -/
theorem C7_limit_51_accepted :
    (get_recommendations demoDb [] simZero (demoRequest 51)).isOk = true ∧
      (get_recommendations demoDb [] simZero (demoRequest 51)).toOption.map
        (fun res => res.recommendations.length) = some 1 := by
  decide

/-- C8 (amended): the justification list of every returned recommendation
has between 0 and 4 entries: one fixed string per firing threshold, with no
cap at 3 and no fallback reason when none fire. -/
theorem C8_reasons_at_most_four {db : List Profile}
    {history : List SwipeRecord} {sim : String → String → ℚ}
    {request : RecommendationRequest} {res : MatchResponse}
    (h : get_recommendations db history sim request = Except.ok res) :
    ∀ r ∈ res.recommendations, r.match_reasons.length ≤ 4 := by
  intro r hr
  obtain ⟨u, p, _, _, rfl⟩ := rec_mem_scored h r hr
  simp only [scoreCandidate]
  exact match_reasons_length_le _ _ _ _

/-- C8 witness: the all-thresholds demo head recommendation has at most 4
reasons. -/
theorem C8_reasons_at_most_four_witness :
    get_recommendations richDb richHistory simOne (demoRequest 20) =
        Except.ok richRes ∧
      richRec ∈ richRes.recommendations ∧ richRec.match_reasons.length ≤ 4 :=
  ⟨by rfl, by decide, @C8_reasons_at_most_four richDb richHistory simOne
    (demoRequest 20) richRes (by rfl) richRec (by decide)⟩

/-- C8 counterexample: a candidate firing all four thresholds receives 4
justification strings, exceeding the claimed cap of 3 (and dually, a
candidate firing none receives an empty list rather than a fallback). -/
theorem C8_four_reasons :
    ((get_recommendations richDb richHistory simOne
          (demoRequest 20)).toOption.bind
        (fun res => res.recommendations.head?)).map
          (fun r => r.match_reasons.length) = some 4 ∧ ¬ (4 ≤ 3) := by
  decide

/-- C9 (amended): the returned page is sorted in descending order of overall
score; candidates with equal overall score keep their candidate-pool order
(Python list.sort is stable), they are not reordered by identity; the
ranking is a pure function of its inputs, hence deterministic. -/
theorem C9_sorted_descending {db : List Profile}
    {history : List SwipeRecord} {sim : String → String → ℚ}
    {request : RecommendationRequest} {res : MatchResponse}
    (h : get_recommendations db history sim request = Except.ok res) :
    List.Pairwise (fun a b => b.overall_score ≤ a.overall_score)
      res.recommendations := by
  unfold get_recommendations at h
  cases hfind : db.find? (fun q => q.id == request.user_id) with
  | none => rw [hfind] at h; exact absurd h (by simp)
  | some user_profile =>
    rw [hfind] at h
    simp only [Except.ok.injEq] at h
    subst h
    exact List.Pairwise.sublist (pySliceTo_sublist _ _)
      (List.sorted_insertionSort byOverallDesc _)

/-- C9 witness: the tie-break demo response is sorted descending by overall
score. -/
theorem C9_sorted_descending_witness :
    get_recommendations tieDb [] simZero (demoRequest 20) =
        Except.ok tieRes ∧
      List.Pairwise (fun a b => b.overall_score ≤ a.overall_score)
        tieRes.recommendations :=
  ⟨by rfl, @C9_sorted_descending tieDb [] simZero (demoRequest 20) tieRes
    (by rfl)⟩

/-- C9 counterexample: two candidates tie at overall score 0 with the pool
listing identity "b" before "a"; the returned order is ["b", "a"], not the
identity-ascending ["a", "b"] the spec claims. -/
theorem C9_tie_keeps_pool_order :
    (get_recommendations tieDb [] simZero (demoRequest 20)).toOption.map
        (fun res => (res.recommendations.map (fun r => r.target_user_id),
          res.recommendations.map (fun r => r.overall_score))) =
      some (["b", "a"], [0, 0]) ∧
      (["b", "a"] : List String) ≠ ["a", "b"] := by
  decide

/-- C10: in every successful response, each recommendation has its
similarity_score field equal to its overall_score field: the source assigns
the same computed overall value to both. -/
theorem C10_similarity_equals_overall {db : List Profile}
    {history : List SwipeRecord} {sim : String → String → ℚ}
    {request : RecommendationRequest} {res : MatchResponse}
    (h : get_recommendations db history sim request = Except.ok res) :
    ∀ r ∈ res.recommendations, r.similarity_score = r.overall_score := by
  intro r hr
  obtain ⟨u, p, _, _, rfl⟩ := rec_mem_scored h r hr
  rfl

/-- C10 witness: the two fields agree on the head recommendation of the
demo run. -/
theorem C10_similarity_equals_overall_witness :
    get_recommendations demoDb [] simZero (demoRequest 20) =
        Except.ok demoRes20 ∧
      demoRec ∈ demoRes20.recommendations ∧
      demoRec.similarity_score = demoRec.overall_score :=
  ⟨by rfl, by decide, @C10_similarity_equals_overall demoDb [] simZero
    (demoRequest 20) demoRes20 (by rfl) demoRec (by decide)⟩

end

end GitAlong
